import Mathlib

/-! Semantic analysis of DROP statements.

A shallow embedding of `PTDropStmt::Analyze` from
`src/yb/yql/cql/ql/ptree/pt_drop.cc`.

The statement node, the qualified name and the semantic context are declared in
headers that are not part of the source tree at hand (`pt_drop.h`,
`sem_context.h`).  What the analysed function needs from them is kept abstract:

* a qualified name is the record of the values its accessors return;
* the semantic context is the record of its collaborators, each a function of
  the arguments it is called with;
* the process-wide flag `FLAGS_use_cassandra_authentication` is an explicit
  argument of `Analyze`.

`Analyze` returns, next to the status, the node as the call leaves it (name
resolution rewrites the name in place) and the collaborator calls it made, in
program order.
-/

namespace yb.ql

/-! ## Data model -/

/-- Source position of a tree node. -/
abbrev YBLocation := Nat

/-- Kinds of object a statement may target.  The five kinds that
`PTDropStmt::Analyze` names, and `OBJECT_OTHER tag` for every further value of
the enumeration. -/
inductive ObjectType where
  | OBJECT_TABLE
  | OBJECT_INDEX
  | OBJECT_TYPE
  | OBJECT_SCHEMA
  | OBJECT_ROLE
  | OBJECT_OTHER (tag : Nat)
  deriving DecidableEq

/-- Permission actions; `DROP_PERMISSION` is the one used by DROP statements. -/
inductive PermissionType where
  | DROP_PERMISSION
  | OTHER_PERMISSION (tag : Nat)
  deriving DecidableEq

/-- Error codes.  `CQL_STATEMENT_INVALID`, `INVALID_REQUEST` and
`FEATURE_NOT_SUPPORTED` are the codes `pt_drop.cc` passes itself;
`FEATURE_DISABLED` is the kind reported by the role gate; `OTHER_CODE` stands
for whatever code a collaborator reports. -/
inductive ErrorCode where
  | CQL_STATEMENT_INVALID
  | INVALID_REQUEST
  | FEATURE_NOT_SUPPORTED
  | FEATURE_DISABLED
  | OTHER_CODE (code : Int)
  deriving DecidableEq

/-- Result of a checked operation: `OK`, or an error carrying its code, its
message and the location it was reported at. -/
inductive Status where
  | OK
  | Error (code : ErrorCode) (msg : String) (loc : YBLocation)
  deriving DecidableEq

/-- Whether the status is `OK` (`Status::ok()`). -/
def Status.ok : Status → Bool
  | .OK => true
  | .Error _ _ _ => false

/-- Error code of a status, if it is an error. -/
def Status.code : Status → Option ErrorCode
  | .OK => none
  | .Error c _ _ => some c

/-- Error message of a status, if it is an error. -/
def Status.message : Status → Option String
  | .OK => none
  | .Error _ m _ => some m

/-- A table name qualified by its namespace (`client::YBTableName`). -/
structure YBTableName where
  namespace_name : String
  table_name : String
  deriving DecidableEq

/-- A qualified name, as seen through the accessors `pt_drop.cc` calls on it:
`ToTableName()`, `QLName()` and `last_name()`. -/
structure PTQualifiedName where
  ToTableName : YBTableName
  QLName : String
  last_name : String
  deriving DecidableEq

/-- The list of names of a statement.  The parser produces at least one name, so
the list is a first element and the remaining ones. -/
structure PTQualifiedNameListNode where
  loc : YBLocation
  first : PTQualifiedName
  rest : List PTQualifiedName
  deriving DecidableEq

/-- Number of names in the list (`names_->size()`). -/
def PTQualifiedNameListNode.size (l : PTQualifiedNameListNode) : Nat :=
  l.rest.length + 1

/-- All names of the list, in order. -/
def PTQualifiedNameListNode.toList (l : PTQualifiedNameListNode) : List PTQualifiedName :=
  l.first :: l.rest

/-- The DROP statement node (`PTDropStmt`): its constructor stores the object
type, the names and the IF EXISTS flag next to the location. -/
structure PTDropStmt where
  loc_ : YBLocation
  drop_type_ : ObjectType
  names_ : PTQualifiedNameListNode
  drop_if_exists_ : Bool
  deriving DecidableEq

/-- Accessor `loc()`. -/
def PTDropStmt.loc (self : PTDropStmt) : YBLocation := self.loc_

/-- Accessor `drop_type()`. -/
def PTDropStmt.drop_type (self : PTDropStmt) : ObjectType := self.drop_type_

/-- Accessor `drop_if_exists()`. -/
def PTDropStmt.drop_if_exists (self : PTDropStmt) : Bool := self.drop_if_exists_

/-- Accessor `name()`: the name being dropped, the first element of `names_`. -/
def PTDropStmt.name (self : PTDropStmt) : PTQualifiedName := self.names_.first

/-- Accessor `yb_table_name()`: the table-qualified form of `name()`. -/
def PTDropStmt.yb_table_name (self : PTDropStmt) : YBTableName := self.name.ToTableName

/-- The node after `name()` has been rewritten in place to `n`. -/
def PTDropStmt.withName (self : PTDropStmt) (n : PTQualifiedName) : PTDropStmt :=
  { self with names_ := { self.names_ with first := n } }

/-! ## The semantic context -/

/-- The collaborators `Analyze` reaches through `sem_context`. -/
structure SemContext where
  /-- Whether role management is enabled (what `RETURN_NOT_AUTH_ENABLED` tests). -/
  IsRoleManagementEnabled : Bool
  /-- Name resolution: the status, and the name as the call leaves it. -/
  ResolveName : PTQualifiedName → ObjectType → Status × PTQualifiedName
  CheckHasTablePermission : YBLocation → PermissionType → YBTableName → Status
  CheckHasAllKeyspacesPermission : YBLocation → PermissionType → Status
  CheckHasKeyspacePermission : YBLocation → PermissionType → String → Status
  CheckHasRolePermission : YBLocation → PermissionType → String → Status
  CurrentRoleName : String

/-- Modelled from the spec: `SemContext::Error` is declared in `sem_context.h`,
which is absent.  It constructs an error carrying the code, the message and the
location of the node it is given. -/
def SemContext.Error (_sem_context : SemContext) (loc : YBLocation) (msg : String)
    (code : ErrorCode) : Status :=
  Status.Error code msg loc

/-- Modelled from the spec: the overload of `SemContext::Error` that takes a
node and a code only; the error carries no message text. -/
def SemContext.ErrorCodeOnly (sem_context : SemContext) (loc : YBLocation)
    (code : ErrorCode) : Status :=
  sem_context.Error loc "" code

/-- Modelled from the spec: the macro `RETURN_NOT_AUTH_ENABLED` is defined in a
header that is absent.  When role management is not enabled in the context it
makes the enclosing function return a `FeatureDisabled` error (`some`);
otherwise control continues (`none`). -/
def RETURN_NOT_AUTH_ENABLED (sem_context : SemContext) (loc : YBLocation) : Option Status :=
  if sem_context.IsRoleManagementEnabled then none
  else some (sem_context.ErrorCodeOnly loc ErrorCode.FEATURE_DISABLED)

/-- Method `PTQualifiedName::AnalyzeName(sem_context, object_type)`: name
resolution, delegated to the context. -/
def PTQualifiedName.AnalyzeName (self : PTQualifiedName) (sem_context : SemContext)
    (object_type : ObjectType) : Status × PTQualifiedName :=
  sem_context.ResolveName self object_type

/-- A collaborator call made by `Analyze`, with its arguments. -/
inductive Call where
  | AnalyzeName (name : PTQualifiedName) (object_type : ObjectType)
  | CheckHasTablePermission (loc : YBLocation) (perm : PermissionType) (table : YBTableName)
  | CheckHasAllKeyspacesPermission (loc : YBLocation) (perm : PermissionType)
  | CheckHasKeyspacePermission (loc : YBLocation) (perm : PermissionType) (keyspace : String)
  | CheckHasRolePermission (loc : YBLocation) (perm : PermissionType) (role : String)
  | CurrentRoleName
  deriving DecidableEq

/-- Whether a call is one of the four permission checks. -/
def Call.isPermissionCheck : Call → Bool
  | .CheckHasTablePermission _ _ _ => true
  | .CheckHasAllKeyspacesPermission _ _ => true
  | .CheckHasKeyspacePermission _ _ _ => true
  | .CheckHasRolePermission _ _ _ => true
  | _ => false

/-- What a run of `Analyze` produces: the returned status, the node as the run
leaves it, and the collaborator calls made, in order. -/
structure AnalyzeResult where
  status : Status
  stmt : PTDropStmt
  calls : List Call
  deriving DecidableEq

/-! ## `PTDropStmt::Analyze` -/

/-- The authorization switch of `Analyze` (the body of
`if (FLAGS_use_cassandra_authentication)`), run on the node after name
resolution.  `calls` are the calls made so far. -/
def PTDropStmt.AnalyzeAuth (sem_context : SemContext) (self : PTDropStmt)
    (calls : List Call) : AnalyzeResult :=
  match self.drop_type with
  | .OBJECT_INDEX | .OBJECT_TABLE =>
    let s := sem_context.CheckHasTablePermission self.loc .DROP_PERMISSION self.yb_table_name
    let calls1 := calls ++ [Call.CheckHasTablePermission self.loc .DROP_PERMISSION self.yb_table_name]
    if !s.ok then ⟨s, self, calls1⟩ else ⟨Status.OK, self, calls1⟩
  | .OBJECT_TYPE =>
    let s := sem_context.CheckHasAllKeyspacesPermission self.loc .DROP_PERMISSION
    let calls1 := calls ++ [Call.CheckHasAllKeyspacesPermission self.loc .DROP_PERMISSION]
    if !s.ok then ⟨s, self, calls1⟩ else ⟨Status.OK, self, calls1⟩
  | .OBJECT_SCHEMA =>
    let s := sem_context.CheckHasKeyspacePermission self.loc .DROP_PERMISSION
      self.yb_table_name.namespace_name
    let calls1 := calls ++ [Call.CheckHasKeyspacePermission self.loc .DROP_PERMISSION
      self.yb_table_name.namespace_name]
    if !s.ok then ⟨s, self, calls1⟩ else ⟨Status.OK, self, calls1⟩
  | .OBJECT_ROLE =>
    let s := sem_context.CheckHasRolePermission self.loc .DROP_PERMISSION self.name.QLName
    let calls1 := calls ++ [Call.CheckHasRolePermission self.loc .DROP_PERMISSION self.name.QLName]
    if !s.ok then ⟨s, self, calls1⟩
    else
      let calls2 := calls1 ++ [Call.CurrentRoleName]
      if sem_context.CurrentRoleName = self.name.QLName then
        ⟨sem_context.Error self.loc "Cannot DROP primary role for current login"
          .INVALID_REQUEST, self, calls2⟩
      else ⟨Status.OK, self, calls2⟩
  | .OBJECT_OTHER _ =>
    ⟨sem_context.ErrorCodeOnly self.loc .FEATURE_NOT_SUPPORTED, self, calls⟩

/-- The function `PTDropStmt::Analyze(sem_context)`. -/
def PTDropStmt.Analyze (FLAGS_use_cassandra_authentication : Bool)
    (sem_context : SemContext) (self : PTDropStmt) : AnalyzeResult :=
  match (if self.drop_type_ = .OBJECT_ROLE then RETURN_NOT_AUTH_ENABLED sem_context self.loc
         else none) with
  | some s => ⟨s, self, []⟩
  | none =>
    if self.names_.size > 1 then
      ⟨sem_context.Error self.names_.loc "Only one object name is allowed in a drop statement"
        .CQL_STATEMENT_INVALID, self, []⟩
    else
      -- Processing object name.
      let r := self.name.AnalyzeName sem_context self.drop_type
      let analyzed := self.withName r.2
      let calls := [Call.AnalyzeName self.name self.drop_type]
      if !r.1.ok then ⟨r.1, analyzed, calls⟩
      else if FLAGS_use_cassandra_authentication then
        analyzed.AnalyzeAuth sem_context calls
      else ⟨Status.OK, analyzed, calls⟩

/-! ## `PTDropStmt::PrintSemanticAnalysisResult` -/

/-- The function `PTDropStmt::PrintSemanticAnalysisResult(sem_context)`.  It
builds the text `sem_output` and streams it to the log; the value returned here
is `sem_output` as it stands when it is logged.  The context only supplies the
memory the text is allocated in. -/
def PTDropStmt.PrintSemanticAnalysisResult (_sem_context : SemContext) (self : PTDropStmt) :
    String :=
  let sem_output := "\t"
  let sem_output := sem_output ++
    (match self.drop_type with
     | .OBJECT_TABLE => "Table "
     | .OBJECT_SCHEMA => "Keyspace "
     | .OBJECT_TYPE => "Type "
     | .OBJECT_INDEX => "Index "
     | .OBJECT_ROLE => "Role "
     | .OBJECT_OTHER _ => "UNKNOWN OBJECT ")
  let sem_output := sem_output ++ self.name.last_name
  sem_output ++ (if self.drop_if_exists then " IF EXISTS" else "")

/-! ## Sample data -/

/-- A name `ks.obj` whose role name and last component are `obj`. -/
def sampleName (ks obj : String) : PTQualifiedName :=
  ⟨⟨ks, obj⟩, obj, obj⟩

/-- A context whose resolver succeeds and places every name in keyspace `ks`,
whose four permission checks all return `perm`, and whose session is `me`. -/
def sampleContext (roleMgmt : Bool) (perm : Status) (me : String) : SemContext where
  IsRoleManagementEnabled := roleMgmt
  ResolveName := fun n _ => (Status.OK, sampleName "ks" n.last_name)
  CheckHasTablePermission := fun _ _ _ => perm
  CheckHasAllKeyspacesPermission := fun _ _ => perm
  CheckHasKeyspacePermission := fun _ _ _ => perm
  CheckHasRolePermission := fun _ _ _ => perm
  CurrentRoleName := me

/-- The error a sample permission check reports when permission is missing. -/
def samplePermissionError : Status :=
  Status.Error (ErrorCode.OTHER_CODE 1) "permission denied" 7

/-- The statement `DROP <kind> IF EXISTS orders, <more>` at location 7, its name
list at location 3. -/
def sampleStmt (kind : ObjectType) (more : List PTQualifiedName) : PTDropStmt :=
  ⟨7, kind, ⟨3, sampleName "" "orders", more⟩, true⟩

/-- A context like `sampleContext` whose resolver fails and leaves the name as it
was. -/
def sampleUnresolvedContext (roleMgmt : Bool) (perm : Status) (me : String) : SemContext where
  IsRoleManagementEnabled := roleMgmt
  ResolveName := fun n _ => (Status.Error (ErrorCode.OTHER_CODE 2) "keyspace not found" 3, n)
  CheckHasTablePermission := fun _ _ _ => perm
  CheckHasAllKeyspacesPermission := fun _ _ => perm
  CheckHasKeyspacePermission := fun _ _ _ => perm
  CheckHasRolePermission := fun _ _ _ => perm
  CurrentRoleName := me

theorem Status.ok_iff (s : Status) : s.ok = true ↔ s = Status.OK := by
  cases s <;> simp [Status.ok]

theorem Status.not_ok_iff (s : Status) : s.ok = false ↔ s ≠ Status.OK := by
  cases s <;> simp [Status.ok]

theorem PTQualifiedNameListNode.size_le_one_iff (l : PTQualifiedNameListNode) :
    l.size ≤ 1 ↔ l.size = 1 := by
  unfold PTQualifiedNameListNode.size
  omega

theorem PTDropStmt.drop_type_withName (self : PTDropStmt) (n : PTQualifiedName) :
    (self.withName n).drop_type = self.drop_type := rfl

theorem PTDropStmt.loc_withName (self : PTDropStmt) (n : PTQualifiedName) :
    (self.withName n).loc = self.loc := rfl

theorem PTDropStmt.name_withName (self : PTDropStmt) (n : PTQualifiedName) :
    (self.withName n).name = n := rfl

theorem PTDropStmt.yb_table_name_withName (self : PTDropStmt) (n : PTQualifiedName) :
    (self.withName n).yb_table_name = n.ToTableName := rfl

/-- The role gate lets the statement through. -/
theorem PTDropStmt.gate_passes (sem_context : SemContext) (self : PTDropStmt)
    (hgate : self.drop_type = ObjectType.OBJECT_ROLE → sem_context.IsRoleManagementEnabled = true) :
    (if self.drop_type_ = ObjectType.OBJECT_ROLE then RETURN_NOT_AUTH_ENABLED sem_context self.loc
      else none) = none := by
  by_cases h : self.drop_type_ = ObjectType.OBJECT_ROLE
  · simp [h, RETURN_NOT_AUTH_ENABLED, hgate h]
  · simp [h]

/-- Past the gate, with one name that resolves, `Analyze` is the authorization
switch when the flag is set and succeeds otherwise. -/
theorem PTDropStmt.Analyze_resolved (flag : Bool) (sem_context : SemContext) (self : PTDropStmt)
    (n : PTQualifiedName)
    (hgate : self.drop_type = ObjectType.OBJECT_ROLE → sem_context.IsRoleManagementEnabled = true)
    (hone : self.names_.size ≤ 1)
    (hres : self.name.AnalyzeName sem_context self.drop_type = (Status.OK, n)) :
    self.Analyze flag sem_context =
      if flag then (self.withName n).AnalyzeAuth sem_context
        [Call.AnalyzeName self.name self.drop_type]
      else ⟨Status.OK, self.withName n, [Call.AnalyzeName self.name self.drop_type]⟩ := by
  have hsize : ¬ self.names_.size > 1 := by omega
  unfold PTDropStmt.Analyze
  rw [PTDropStmt.gate_passes sem_context self hgate]
  simp [hsize, hres, Status.ok]

/-- With more than one name past the gate, `Analyze` returns the arity error. -/
theorem PTDropStmt.Analyze_many (flag : Bool) (sem_context : SemContext) (self : PTDropStmt)
    (hgate : self.drop_type = ObjectType.OBJECT_ROLE → sem_context.IsRoleManagementEnabled = true)
    (hmany : 1 < self.names_.size) :
    self.Analyze flag sem_context =
      ⟨Status.Error ErrorCode.CQL_STATEMENT_INVALID
        "Only one object name is allowed in a drop statement" self.names_.loc, self, []⟩ := by
  unfold PTDropStmt.Analyze
  rw [PTDropStmt.gate_passes sem_context self hgate]
  simp [hmany, SemContext.Error]

/-- A role statement in a context without role management stops at the gate. -/
theorem PTDropStmt.Analyze_gated (flag : Bool) (sem_context : SemContext) (self : PTDropStmt)
    (hrole : self.drop_type = ObjectType.OBJECT_ROLE)
    (hoff : sem_context.IsRoleManagementEnabled = false) :
    self.Analyze flag sem_context =
      ⟨Status.Error ErrorCode.FEATURE_DISABLED "" self.loc, self, []⟩ := by
  have h : self.drop_type_ = ObjectType.OBJECT_ROLE := hrole
  unfold PTDropStmt.Analyze
  simp [h, RETURN_NOT_AUTH_ENABLED, hoff, SemContext.ErrorCodeOnly, SemContext.Error]

/-- A checked call followed by `RETURN_NOT_OK` and a final `return Status::OK()`
returns the status of the call. -/
theorem AnalyzeResult.return_not_ok (s : Status) (stmt : PTDropStmt) (calls : List Call) :
    (if (!s.ok) = true then (⟨s, stmt, calls⟩ : AnalyzeResult) else ⟨Status.OK, stmt, calls⟩) =
      ⟨s, stmt, calls⟩ := by
  cases s <;> simp [Status.ok]

/-! ## Authorization dispatch -/

/-- C1. Authorization soundness: with authorization active, whenever `Analyze`
returns success the statement has a single name, name resolution of that name
succeeded and left the resolved name in the node, the drop type is one of the
five known kinds, and the permission check selected by the drop type was called
and returned OK: the table check on the resolved table name for TABLE and INDEX,
the all-keyspaces check for TYPE, the keyspace check on the resolved namespace
for SCHEMA, the role check on the role name for ROLE.  Hence `Analyze` never
succeeds when that check returned an error. -/
theorem analyze_authorization_sound (sem_context : SemContext) (stmt : PTDropStmt)
    (hok : (stmt.Analyze true sem_context).status = Status.OK) :
    stmt.names_.size = 1 ∧
    ∃ n : PTQualifiedName,
      stmt.name.AnalyzeName sem_context stmt.drop_type = (Status.OK, n) ∧
      (stmt.Analyze true sem_context).stmt = stmt.withName n ∧
      match stmt.drop_type with
      | .OBJECT_TABLE | .OBJECT_INDEX =>
        sem_context.CheckHasTablePermission stmt.loc .DROP_PERMISSION n.ToTableName = Status.OK ∧
        Call.CheckHasTablePermission stmt.loc .DROP_PERMISSION n.ToTableName ∈
          (stmt.Analyze true sem_context).calls
      | .OBJECT_TYPE =>
        sem_context.CheckHasAllKeyspacesPermission stmt.loc .DROP_PERMISSION = Status.OK ∧
        Call.CheckHasAllKeyspacesPermission stmt.loc .DROP_PERMISSION ∈
          (stmt.Analyze true sem_context).calls
      | .OBJECT_SCHEMA =>
        sem_context.CheckHasKeyspacePermission stmt.loc .DROP_PERMISSION
          n.ToTableName.namespace_name = Status.OK ∧
        Call.CheckHasKeyspacePermission stmt.loc .DROP_PERMISSION n.ToTableName.namespace_name ∈
          (stmt.Analyze true sem_context).calls
      | .OBJECT_ROLE =>
        sem_context.CheckHasRolePermission stmt.loc .DROP_PERMISSION n.QLName = Status.OK ∧
        Call.CheckHasRolePermission stmt.loc .DROP_PERMISSION n.QLName ∈
          (stmt.Analyze true sem_context).calls
      | .OBJECT_OTHER _ => False := by
  -- the gate must have let the statement through
  have hgate : stmt.drop_type = ObjectType.OBJECT_ROLE →
      sem_context.IsRoleManagementEnabled = true := by
    intro hrole
    by_contra hoff
    have hoff2 : sem_context.IsRoleManagementEnabled = false := by simpa using hoff
    rw [PTDropStmt.Analyze_gated true sem_context stmt hrole hoff2] at hok
    exact Status.noConfusion hok
  -- there is one name
  have hone : stmt.names_.size ≤ 1 := by
    by_contra hmany
    rw [PTDropStmt.Analyze_many true sem_context stmt hgate (by omega)] at hok
    exact Status.noConfusion hok
  -- the resolver succeeded
  rcases hr : stmt.name.AnalyzeName sem_context stmt.drop_type with ⟨s, n⟩
  have hs : s = Status.OK := by
    by_contra hne
    have hsok : s.ok = false := (Status.not_ok_iff s).mpr hne
    have hsize : ¬ stmt.names_.size > 1 := by omega
    unfold PTDropStmt.Analyze at hok
    rw [PTDropStmt.gate_passes sem_context stmt hgate] at hok
    simp [hsize, hr, hsok] at hok
    exact hne hok
  subst hs
  refine ⟨(PTQualifiedNameListNode.size_le_one_iff _).mp hone, n, rfl, ?_⟩
  have hA := PTDropStmt.Analyze_resolved true sem_context stmt n hgate hone hr
  simp only [if_true] at hA
  rw [hA] at hok ⊢
  unfold PTDropStmt.AnalyzeAuth at hok ⊢
  simp only [PTDropStmt.drop_type_withName, PTDropStmt.loc_withName, PTDropStmt.name_withName,
    PTDropStmt.yb_table_name_withName, AnalyzeResult.return_not_ok] at hok ⊢
  cases hdt : stmt.drop_type <;> simp only [hdt] at hok ⊢
  case OBJECT_TABLE => exact ⟨trivial, hok, by simp⟩
  case OBJECT_INDEX => exact ⟨trivial, hok, by simp⟩
  case OBJECT_TYPE => exact ⟨trivial, hok, by simp⟩
  case OBJECT_SCHEMA => exact ⟨trivial, hok, by simp⟩
  case OBJECT_ROLE =>
    cases hp : sem_context.CheckHasRolePermission stmt.loc .DROP_PERMISSION n.QLName with
    | OK =>
      by_cases hme : sem_context.CurrentRoleName = n.QLName
      · simp [hp, Status.ok, hme, SemContext.Error] at hok
      · simp [hp, Status.ok, hme]
    | Error c m l => simp [hp, Status.ok] at hok
  case OBJECT_OTHER tag =>
    simp [SemContext.ErrorCodeOnly, SemContext.Error] at hok

/-- Witness for C1: `DROP TABLE IF EXISTS orders` analysed with authorization
active by a session holding the permission. -/
theorem analyze_authorization_sound_witness :
    ((sampleStmt .OBJECT_TABLE []).Analyze true (sampleContext true .OK "admin")).status
      = Status.OK ∧
    (sampleStmt .OBJECT_TABLE []).names_.size = 1 ∧
    ∃ n : PTQualifiedName,
      (sampleStmt .OBJECT_TABLE []).name.AnalyzeName (sampleContext true .OK "admin")
        .OBJECT_TABLE = (Status.OK, n) ∧
      ((sampleStmt .OBJECT_TABLE []).Analyze true (sampleContext true .OK "admin")).stmt =
        (sampleStmt .OBJECT_TABLE []).withName n ∧
      (sampleContext true .OK "admin").CheckHasTablePermission 7 .DROP_PERMISSION
        n.ToTableName = Status.OK ∧
      Call.CheckHasTablePermission 7 .DROP_PERMISSION n.ToTableName ∈
        ((sampleStmt .OBJECT_TABLE []).Analyze true (sampleContext true .OK "admin")).calls :=
  ⟨by decide,
    analyze_authorization_sound (sampleContext true .OK "admin") (sampleStmt .OBJECT_TABLE [])
      (by decide)⟩

/-- C2. For TABLE and for INDEX, with authorization enabled, one name and
successful name resolution, `Analyze` returns exactly the result of the table
permission check for DROP on the resolved table name: it succeeds when that
check returns OK and fails with the error of the check otherwise.  Both kinds
make the same single call, `CheckHasTablePermission(loc, DROP, resolved table
name)`, right after name resolution. -/
theorem analyze_table_index_permission (sem_context : SemContext) (stmt : PTDropStmt)
    (n : PTQualifiedName)
    (hkind : stmt.drop_type = .OBJECT_TABLE ∨ stmt.drop_type = .OBJECT_INDEX)
    (hone : stmt.names_.size = 1)
    (hres : stmt.name.AnalyzeName sem_context stmt.drop_type = (Status.OK, n)) :
    stmt.Analyze true sem_context =
      ⟨sem_context.CheckHasTablePermission stmt.loc .DROP_PERMISSION n.ToTableName,
        stmt.withName n,
        [Call.AnalyzeName stmt.name stmt.drop_type,
         Call.CheckHasTablePermission stmt.loc .DROP_PERMISSION n.ToTableName]⟩ ∧
    (sem_context.CheckHasTablePermission stmt.loc .DROP_PERMISSION n.ToTableName = Status.OK →
      (stmt.Analyze true sem_context).status = Status.OK) ∧
    (sem_context.CheckHasTablePermission stmt.loc .DROP_PERMISSION n.ToTableName ≠ Status.OK →
      (stmt.Analyze true sem_context).status ≠ Status.OK ∧
      (stmt.Analyze true sem_context).status =
        sem_context.CheckHasTablePermission stmt.loc .DROP_PERMISSION n.ToTableName) := by
  have hgate : stmt.drop_type = ObjectType.OBJECT_ROLE →
      sem_context.IsRoleManagementEnabled = true := by
    intro hrole
    rcases hkind with h | h <;> rw [h] at hrole <;> exact ObjectType.noConfusion hrole
  have hA := PTDropStmt.Analyze_resolved true sem_context stmt n hgate (by omega) hres
  simp only [if_true] at hA
  have hmain : stmt.Analyze true sem_context =
      ⟨sem_context.CheckHasTablePermission stmt.loc .DROP_PERMISSION n.ToTableName,
        stmt.withName n,
        [Call.AnalyzeName stmt.name stmt.drop_type,
         Call.CheckHasTablePermission stmt.loc .DROP_PERMISSION n.ToTableName]⟩ := by
    rw [hA]
    unfold PTDropStmt.AnalyzeAuth
    simp only [PTDropStmt.drop_type_withName, PTDropStmt.loc_withName,
      PTDropStmt.yb_table_name_withName, AnalyzeResult.return_not_ok]
    rcases hkind with h | h <;> simp [h]
  refine ⟨hmain, ?_, ?_⟩
  · intro h
    rw [hmain]
    exact h
  · intro h
    rw [hmain]
    exact ⟨h, rfl⟩

/-- Witness for C2: `DROP TABLE IF EXISTS orders` by a session without the
permission fails with the error of the table permission check. -/
theorem analyze_table_index_permission_witness :
    (sampleStmt .OBJECT_TABLE []).names_.size = 1 ∧
    (sampleStmt .OBJECT_TABLE []).Analyze true (sampleContext true samplePermissionError "admin") =
      ⟨samplePermissionError, (sampleStmt .OBJECT_TABLE []).withName (sampleName "ks" "orders"),
        [Call.AnalyzeName (sampleName "" "orders") .OBJECT_TABLE,
         Call.CheckHasTablePermission 7 .DROP_PERMISSION ⟨"ks", "orders"⟩]⟩ :=
  ⟨by decide,
    (analyze_table_index_permission (sampleContext true samplePermissionError "admin")
      (sampleStmt .OBJECT_TABLE []) (sampleName "ks" "orders") (Or.inl rfl) (by decide) rfl).1⟩

/-- C3. Self-drop guard: for ROLE with authorization enabled (the statement
passes the gate `RETURN_NOT_AUTH_ENABLED` and the authorization flag is set),
one name and successful name resolution, if the role name being dropped equals
`CurrentRoleName()` then `Analyze` fails; and when the role permission check
for DROP on that role succeeds, it fails with the `INVALID_REQUEST` error built
after both the permission check and `CurrentRoleName()` were consulted. -/
theorem analyze_role_self_drop (sem_context : SemContext) (stmt : PTDropStmt)
    (n : PTQualifiedName)
    (hkind : stmt.drop_type = .OBJECT_ROLE)
    (hgate : sem_context.IsRoleManagementEnabled = true)
    (hone : stmt.names_.size = 1)
    (hres : stmt.name.AnalyzeName sem_context stmt.drop_type = (Status.OK, n))
    (hself : sem_context.CurrentRoleName = n.QLName) :
    (stmt.Analyze true sem_context).status ≠ Status.OK ∧
    (sem_context.CheckHasRolePermission stmt.loc .DROP_PERMISSION n.QLName = Status.OK →
      stmt.Analyze true sem_context =
        ⟨Status.Error .INVALID_REQUEST "Cannot DROP primary role for current login" stmt.loc,
          stmt.withName n,
          [Call.AnalyzeName stmt.name stmt.drop_type,
           Call.CheckHasRolePermission stmt.loc .DROP_PERMISSION n.QLName,
           Call.CurrentRoleName]⟩) := by
  have hA := PTDropStmt.Analyze_resolved true sem_context stmt n (fun _ => hgate) (by omega) hres
  simp only [if_true] at hA
  rw [hA]
  unfold PTDropStmt.AnalyzeAuth
  simp only [PTDropStmt.drop_type_withName, PTDropStmt.loc_withName, PTDropStmt.name_withName,
    hkind]
  cases hp : sem_context.CheckHasRolePermission stmt.loc .DROP_PERMISSION n.QLName with
  | OK => simp [Status.ok, hself, SemContext.Error]
  | Error c m l => simp [Status.ok]

/-- Witness for C3: the session `orders` drops the role `orders` while holding
the permission. -/
theorem analyze_role_self_drop_witness :
    (sampleStmt .OBJECT_ROLE []).names_.size = 1 ∧
    (sampleContext true .OK "orders").CurrentRoleName = (sampleName "ks" "orders").QLName ∧
    ((sampleStmt .OBJECT_ROLE []).Analyze true (sampleContext true .OK "orders")).status =
      Status.Error .INVALID_REQUEST "Cannot DROP primary role for current login" 7 :=
  ⟨by decide, by decide,
    congrArg AnalyzeResult.status
      ((analyze_role_self_drop (sampleContext true .OK "orders") (sampleStmt .OBJECT_ROLE [])
        (sampleName "ks" "orders") rfl rfl (by decide) rfl (by decide)).2 rfl)⟩

/-- C4. The permission check precedes the self-drop guard: for ROLE with
authorization enabled (the statement passes the gate `RETURN_NOT_AUTH_ENABLED`
and the authorization flag is set), one name and successful name resolution, if
the role permission check fails then `Analyze` returns the error of that check
(so its code is not `INVALID_REQUEST` unless the check itself reported that
code), `CurrentRoleName()` is not consulted, and the result is the same for
every value of `CurrentRoleName()`, the role being dropped included. -/
theorem analyze_role_permission_first (sem_context : SemContext) (stmt : PTDropStmt)
    (n : PTQualifiedName)
    (hkind : stmt.drop_type = .OBJECT_ROLE)
    (hgate : sem_context.IsRoleManagementEnabled = true)
    (hone : stmt.names_.size = 1)
    (hres : stmt.name.AnalyzeName sem_context stmt.drop_type = (Status.OK, n))
    (hperm : sem_context.CheckHasRolePermission stmt.loc .DROP_PERMISSION n.QLName ≠ Status.OK) :
    stmt.Analyze true sem_context =
      ⟨sem_context.CheckHasRolePermission stmt.loc .DROP_PERMISSION n.QLName,
        stmt.withName n,
        [Call.AnalyzeName stmt.name stmt.drop_type,
         Call.CheckHasRolePermission stmt.loc .DROP_PERMISSION n.QLName]⟩ ∧
    ((sem_context.CheckHasRolePermission stmt.loc .DROP_PERMISSION n.QLName).code ≠
        some ErrorCode.INVALID_REQUEST →
      (stmt.Analyze true sem_context).status.code ≠ some ErrorCode.INVALID_REQUEST) ∧
    ∀ me : String,
      stmt.Analyze true { sem_context with CurrentRoleName := me } =
        stmt.Analyze true sem_context := by
  have hnok : (sem_context.CheckHasRolePermission stmt.loc .DROP_PERMISSION n.QLName).ok
      = false := (Status.not_ok_iff _).mpr hperm
  have key : ∀ ctx : SemContext, ctx.IsRoleManagementEnabled = true →
      stmt.name.AnalyzeName ctx stmt.drop_type = (Status.OK, n) →
      ctx.CheckHasRolePermission = sem_context.CheckHasRolePermission →
      stmt.Analyze true ctx =
        ⟨sem_context.CheckHasRolePermission stmt.loc .DROP_PERMISSION n.QLName,
          stmt.withName n,
          [Call.AnalyzeName stmt.name stmt.drop_type,
           Call.CheckHasRolePermission stmt.loc .DROP_PERMISSION n.QLName]⟩ := by
    intro ctx hg hr hc
    have hA := PTDropStmt.Analyze_resolved true ctx stmt n (fun _ => hg) (by omega) hr
    simp only [if_true] at hA
    rw [hA]
    unfold PTDropStmt.AnalyzeAuth
    simp only [PTDropStmt.drop_type_withName, PTDropStmt.loc_withName, PTDropStmt.name_withName,
      hkind, hc]
    simp [hnok]
  have hmain := key sem_context hgate hres rfl
  refine ⟨hmain, ?_, ?_⟩
  · intro h
    rw [hmain]
    exact h
  · intro me
    rw [hmain]
    exact key { sem_context with CurrentRoleName := me } hgate hres rfl

/-- Witness for C4: the session `orders` drops the role `orders` without holding
the permission; the permission error is returned. -/
theorem analyze_role_permission_first_witness :
    (sampleStmt .OBJECT_ROLE []).names_.size = 1 ∧
    (sampleContext true samplePermissionError "orders").CurrentRoleName =
      (sampleName "ks" "orders").QLName ∧
    (sampleStmt .OBJECT_ROLE []).Analyze true (sampleContext true samplePermissionError "orders") =
      ⟨samplePermissionError, (sampleStmt .OBJECT_ROLE []).withName (sampleName "ks" "orders"),
        [Call.AnalyzeName (sampleName "" "orders") .OBJECT_ROLE,
         Call.CheckHasRolePermission 7 .DROP_PERMISSION "orders"]⟩ :=
  ⟨by decide, by decide,
    (analyze_role_permission_first (sampleContext true samplePermissionError "orders")
      (sampleStmt .OBJECT_ROLE []) (sampleName "ks" "orders") rfl rfl (by decide) rfl
      (by decide)).1⟩

/-! ## Role gate and arity check -/

/-- C5. Role feature gate: for every ROLE statement and every context in which
role management is disabled, `Analyze` fails with `FEATURE_DISABLED`, whatever
the authorization flag, the number of names and the resolver.  The gate is
decided first: no collaborator is called (no name resolution), the node is left
as it was, and the error is not the arity error. -/
theorem analyze_role_gate (flag : Bool) (sem_context : SemContext) (stmt : PTDropStmt)
    (hkind : stmt.drop_type = .OBJECT_ROLE)
    (hoff : sem_context.IsRoleManagementEnabled = false) :
    (stmt.Analyze flag sem_context).status.code = some ErrorCode.FEATURE_DISABLED ∧
    (stmt.Analyze flag sem_context).status.code ≠ some ErrorCode.CQL_STATEMENT_INVALID ∧
    (stmt.Analyze flag sem_context).stmt = stmt ∧
    (stmt.Analyze flag sem_context).calls = [] := by
  rw [PTDropStmt.Analyze_gated flag sem_context stmt hkind hoff]
  simp [Status.code]

/-- Witness for C5: `DROP ROLE orders, guest` with role management disabled. -/
theorem analyze_role_gate_witness :
    1 < (sampleStmt .OBJECT_ROLE [sampleName "" "guest"]).names_.size ∧
    ((sampleStmt .OBJECT_ROLE [sampleName "" "guest"]).Analyze true
      (sampleContext false .OK "admin")).status.code = some ErrorCode.FEATURE_DISABLED :=
  ⟨by decide,
    (analyze_role_gate true (sampleContext false .OK "admin")
      (sampleStmt .OBJECT_ROLE [sampleName "" "guest"]) rfl rfl).1⟩

/-- C6, as stated, fails: `DROP ROLE orders, guest` has two names, yet with role
management disabled `Analyze` returns the `FEATURE_DISABLED` error of the gate
and not `CQL_STATEMENT_INVALID`. -/
theorem analyze_arity_not_for_gated_role :
    1 < (sampleStmt .OBJECT_ROLE [sampleName "" "guest"]).names_.size ∧
    ((sampleStmt .OBJECT_ROLE [sampleName "" "guest"]).Analyze false
      (sampleContext false .OK "admin")).status = Status.Error .FEATURE_DISABLED "" 7 ∧
    ((sampleStmt .OBJECT_ROLE [sampleName "" "guest"]).Analyze false
      (sampleContext false .OK "admin")).status.code ≠ some ErrorCode.CQL_STATEMENT_INVALID := by
  decide

/-- C6, amended. Arity rejection: every statement with more than one name that
passes the role gate (its drop type is not ROLE, or role management is enabled)
fails with `CQL_STATEMENT_INVALID` and the arity message, reported at the name
list, for every drop type, authorization flag and context; no collaborator is
called and the node is left as it was. -/
theorem analyze_arity_rejection (flag : Bool) (sem_context : SemContext) (stmt : PTDropStmt)
    (hgate : stmt.drop_type = .OBJECT_ROLE → sem_context.IsRoleManagementEnabled = true)
    (hmany : 1 < stmt.names_.size) :
    stmt.Analyze flag sem_context =
      ⟨Status.Error .CQL_STATEMENT_INVALID
        "Only one object name is allowed in a drop statement" stmt.names_.loc, stmt, []⟩ ∧
    (stmt.Analyze flag sem_context).status.code = some ErrorCode.CQL_STATEMENT_INVALID := by
  rw [PTDropStmt.Analyze_many flag sem_context stmt hgate hmany]
  exact ⟨rfl, rfl⟩

/-- Witness for C6, amended: `DROP ROLE orders, guest` with role management
enabled. -/
theorem analyze_arity_rejection_witness :
    1 < (sampleStmt .OBJECT_ROLE [sampleName "" "guest"]).names_.size ∧
    ((sampleStmt .OBJECT_ROLE [sampleName "" "guest"]).Analyze true
      (sampleContext true .OK "admin")).status.code = some ErrorCode.CQL_STATEMENT_INVALID :=
  ⟨by decide,
    (analyze_arity_rejection true (sampleContext true .OK "admin")
      (sampleStmt .OBJECT_ROLE [sampleName "" "guest"]) (fun _ => rfl) (by decide)).2⟩

/-! ## Scope of the TYPE and SCHEMA checks, unknown kinds -/

/-- C7. For TYPE with authorization enabled, one name and successful name
resolution, `Analyze` returns exactly the result of the all-keyspaces permission
check for DROP, the only permission check it calls.  The status is the same for
every other statement of kind TYPE at the same location whose name resolves, in
every context with the same all-keyspaces check: it depends neither on the
resolved name nor on the table, keyspace and role checks. -/
theorem analyze_type_permission (sem_context : SemContext) (stmt : PTDropStmt)
    (n : PTQualifiedName)
    (hkind : stmt.drop_type = .OBJECT_TYPE)
    (hone : stmt.names_.size = 1)
    (hres : stmt.name.AnalyzeName sem_context stmt.drop_type = (Status.OK, n)) :
    stmt.Analyze true sem_context =
      ⟨sem_context.CheckHasAllKeyspacesPermission stmt.loc .DROP_PERMISSION,
        stmt.withName n,
        [Call.AnalyzeName stmt.name stmt.drop_type,
         Call.CheckHasAllKeyspacesPermission stmt.loc .DROP_PERMISSION]⟩ ∧
    ∀ (ctx2 : SemContext) (stmt2 : PTDropStmt) (n2 : PTQualifiedName),
      stmt2.drop_type = .OBJECT_TYPE → stmt2.names_.size = 1 →
      stmt2.name.AnalyzeName ctx2 stmt2.drop_type = (Status.OK, n2) →
      stmt2.loc = stmt.loc →
      ctx2.CheckHasAllKeyspacesPermission = sem_context.CheckHasAllKeyspacesPermission →
      (stmt2.Analyze true ctx2).status = (stmt.Analyze true sem_context).status := by
  have key : ∀ (ctx : SemContext) (st : PTDropStmt) (m : PTQualifiedName),
      st.drop_type = .OBJECT_TYPE → st.names_.size = 1 →
      st.name.AnalyzeName ctx st.drop_type = (Status.OK, m) →
      st.Analyze true ctx =
        ⟨ctx.CheckHasAllKeyspacesPermission st.loc .DROP_PERMISSION, st.withName m,
          [Call.AnalyzeName st.name st.drop_type,
           Call.CheckHasAllKeyspacesPermission st.loc .DROP_PERMISSION]⟩ := by
    intro ctx st m hk h1 hr
    have hgate : st.drop_type = ObjectType.OBJECT_ROLE → ctx.IsRoleManagementEnabled = true := by
      intro hrole
      rw [hk] at hrole
      exact ObjectType.noConfusion hrole
    have hA := PTDropStmt.Analyze_resolved true ctx st m hgate (by omega) hr
    simp only [if_true] at hA
    rw [hA]
    unfold PTDropStmt.AnalyzeAuth
    simp only [PTDropStmt.drop_type_withName, PTDropStmt.loc_withName,
      AnalyzeResult.return_not_ok, hk]
    simp
  refine ⟨key sem_context stmt n hkind hone hres, ?_⟩
  intro ctx2 stmt2 n2 hk2 h12 hr2 hloc hsame
  rw [key sem_context stmt n hkind hone hres, key ctx2 stmt2 n2 hk2 h12 hr2, hloc, hsame]

/-- Witness for C7: `DROP TYPE IF EXISTS orders` by a session holding the
all-keyspaces permission. -/
theorem analyze_type_permission_witness :
    (sampleStmt .OBJECT_TYPE []).names_.size = 1 ∧
    (sampleStmt .OBJECT_TYPE []).Analyze true (sampleContext true .OK "admin") =
      ⟨Status.OK, (sampleStmt .OBJECT_TYPE []).withName (sampleName "ks" "orders"),
        [Call.AnalyzeName (sampleName "" "orders") .OBJECT_TYPE,
         Call.CheckHasAllKeyspacesPermission 7 .DROP_PERMISSION]⟩ :=
  ⟨by decide,
    (analyze_type_permission (sampleContext true .OK "admin") (sampleStmt .OBJECT_TYPE [])
      (sampleName "ks" "orders") rfl (by decide) rfl).1⟩

/-- C8. For SCHEMA with authorization enabled, one name and successful name
resolution, `Analyze` returns exactly the result of the keyspace permission
check for DROP applied to the namespace component of the resolved name, the only
permission check it calls.  Two statements of kind SCHEMA at the same location
whose resolved names have the same namespace component get the same status,
whatever the other components of the names, in every context with the same
keyspace check. -/
theorem analyze_schema_permission (sem_context : SemContext) (stmt : PTDropStmt)
    (n : PTQualifiedName)
    (hkind : stmt.drop_type = .OBJECT_SCHEMA)
    (hone : stmt.names_.size = 1)
    (hres : stmt.name.AnalyzeName sem_context stmt.drop_type = (Status.OK, n)) :
    stmt.Analyze true sem_context =
      ⟨sem_context.CheckHasKeyspacePermission stmt.loc .DROP_PERMISSION
          n.ToTableName.namespace_name,
        stmt.withName n,
        [Call.AnalyzeName stmt.name stmt.drop_type,
         Call.CheckHasKeyspacePermission stmt.loc .DROP_PERMISSION
           n.ToTableName.namespace_name]⟩ ∧
    ∀ (ctx2 : SemContext) (stmt2 : PTDropStmt) (n2 : PTQualifiedName),
      stmt2.drop_type = .OBJECT_SCHEMA → stmt2.names_.size = 1 →
      stmt2.name.AnalyzeName ctx2 stmt2.drop_type = (Status.OK, n2) →
      stmt2.loc = stmt.loc →
      ctx2.CheckHasKeyspacePermission = sem_context.CheckHasKeyspacePermission →
      n2.ToTableName.namespace_name = n.ToTableName.namespace_name →
      (stmt2.Analyze true ctx2).status = (stmt.Analyze true sem_context).status := by
  have key : ∀ (ctx : SemContext) (st : PTDropStmt) (m : PTQualifiedName),
      st.drop_type = .OBJECT_SCHEMA → st.names_.size = 1 →
      st.name.AnalyzeName ctx st.drop_type = (Status.OK, m) →
      st.Analyze true ctx =
        ⟨ctx.CheckHasKeyspacePermission st.loc .DROP_PERMISSION m.ToTableName.namespace_name,
          st.withName m,
          [Call.AnalyzeName st.name st.drop_type,
           Call.CheckHasKeyspacePermission st.loc .DROP_PERMISSION
             m.ToTableName.namespace_name]⟩ := by
    intro ctx st m hk h1 hr
    have hgate : st.drop_type = ObjectType.OBJECT_ROLE → ctx.IsRoleManagementEnabled = true := by
      intro hrole
      rw [hk] at hrole
      exact ObjectType.noConfusion hrole
    have hA := PTDropStmt.Analyze_resolved true ctx st m hgate (by omega) hr
    simp only [if_true] at hA
    rw [hA]
    unfold PTDropStmt.AnalyzeAuth
    simp only [PTDropStmt.drop_type_withName, PTDropStmt.loc_withName,
      PTDropStmt.yb_table_name_withName, AnalyzeResult.return_not_ok, hk]
    simp
  refine ⟨key sem_context stmt n hkind hone hres, ?_⟩
  intro ctx2 stmt2 n2 hk2 h12 hr2 hloc hsame hns
  rw [key sem_context stmt n hkind hone hres, key ctx2 stmt2 n2 hk2 h12 hr2, hloc, hsame, hns]

/-- Witness for C8: `DROP KEYSPACE IF EXISTS orders` by a session without the
keyspace permission; the check is applied to the resolved namespace `ks`. -/
theorem analyze_schema_permission_witness :
    (sampleStmt .OBJECT_SCHEMA []).names_.size = 1 ∧
    (sampleStmt .OBJECT_SCHEMA []).Analyze true
        (sampleContext true samplePermissionError "admin") =
      ⟨samplePermissionError, (sampleStmt .OBJECT_SCHEMA []).withName (sampleName "ks" "orders"),
        [Call.AnalyzeName (sampleName "" "orders") .OBJECT_SCHEMA,
         Call.CheckHasKeyspacePermission 7 .DROP_PERMISSION "ks"]⟩ :=
  ⟨by decide,
    (analyze_schema_permission (sampleContext true samplePermissionError "admin")
      (sampleStmt .OBJECT_SCHEMA []) (sampleName "ks" "orders") rfl (by decide) rfl).1⟩

/-- C9. For every drop type other than TABLE, INDEX, TYPE, SCHEMA and ROLE, with
authorization enabled, at most one name and successful name resolution,
`Analyze` fails with `FEATURE_NOT_SUPPORTED`, reported at the statement, and the
only collaborator called is the name resolver: no permission check is
consulted. -/
theorem analyze_unknown_kind (sem_context : SemContext) (stmt : PTDropStmt)
    (n : PTQualifiedName)
    (hkind : stmt.drop_type ≠ .OBJECT_TABLE ∧ stmt.drop_type ≠ .OBJECT_INDEX ∧
      stmt.drop_type ≠ .OBJECT_TYPE ∧ stmt.drop_type ≠ .OBJECT_SCHEMA ∧
      stmt.drop_type ≠ .OBJECT_ROLE)
    (hone : stmt.names_.size ≤ 1)
    (hres : stmt.name.AnalyzeName sem_context stmt.drop_type = (Status.OK, n)) :
    stmt.Analyze true sem_context =
      ⟨sem_context.ErrorCodeOnly stmt.loc .FEATURE_NOT_SUPPORTED, stmt.withName n,
        [Call.AnalyzeName stmt.name stmt.drop_type]⟩ ∧
    (stmt.Analyze true sem_context).status.code = some ErrorCode.FEATURE_NOT_SUPPORTED ∧
    ∀ c ∈ (stmt.Analyze true sem_context).calls, c.isPermissionCheck = false := by
  obtain ⟨h1, h2, h3, h4, h5⟩ := hkind
  have hA := PTDropStmt.Analyze_resolved true sem_context stmt n (fun h => absurd h h5) hone hres
  simp only [if_true] at hA
  have hmain : stmt.Analyze true sem_context =
      ⟨sem_context.ErrorCodeOnly stmt.loc .FEATURE_NOT_SUPPORTED, stmt.withName n,
        [Call.AnalyzeName stmt.name stmt.drop_type]⟩ := by
    rw [hA]
    unfold PTDropStmt.AnalyzeAuth
    simp only [PTDropStmt.drop_type_withName, PTDropStmt.loc_withName]
    cases hdt : stmt.drop_type <;> simp_all
  rw [hmain]
  refine ⟨rfl, rfl, ?_⟩
  intro c hc
  simp only [List.mem_singleton] at hc
  rw [hc]
  rfl

/-- Witness for C9: a statement of an unlisted kind, tag 12. -/
theorem analyze_unknown_kind_witness :
    (sampleStmt (.OBJECT_OTHER 12) []).names_.size ≤ 1 ∧
    (sampleStmt (.OBJECT_OTHER 12) []).Analyze true (sampleContext true .OK "admin") =
      ⟨Status.Error .FEATURE_NOT_SUPPORTED "" 7,
        (sampleStmt (.OBJECT_OTHER 12) []).withName (sampleName "ks" "orders"),
        [Call.AnalyzeName (sampleName "" "orders") (.OBJECT_OTHER 12)]⟩ :=
  ⟨by decide,
    (analyze_unknown_kind (sampleContext true .OK "admin") (sampleStmt (.OBJECT_OTHER 12) [])
      (sampleName "ks" "orders") (by decide) (by decide) rfl).1⟩

/-! ## Authorization disabled -/

/-- C10, as stated, fails for ROLE: `DROP ROLE orders` has a single name that
the resolver would resolve, authorization is disabled, yet with role management
disabled `Analyze` does not succeed: it returns the `FEATURE_DISABLED` error of
the gate without calling the resolver. -/
theorem gated_role_fails_without_authorization :
    (sampleStmt .OBJECT_ROLE []).names_.size = 1 ∧
    (sampleStmt .OBJECT_ROLE []).name.AnalyzeName (sampleContext false .OK "admin")
      .OBJECT_ROLE = (Status.OK, sampleName "ks" "orders") ∧
    (sampleStmt .OBJECT_ROLE []).Analyze false (sampleContext false .OK "admin") =
      ⟨Status.Error .FEATURE_DISABLED "" 7, sampleStmt .OBJECT_ROLE [], []⟩ ∧
    ((sampleStmt .OBJECT_ROLE []).Analyze false (sampleContext false .OK "admin")).status
      ≠ Status.OK := by
  decide

/-- C10, amended. With authorization disabled, for every drop type that passes
the role gate (the four other known kinds, every unlisted kind, and ROLE when
role management is enabled), `Analyze` succeeds once name resolution of the
single name succeeds and leaves the resolved name in the node.  The only
collaborator called is the name resolver: in every context with the same
resolver and the same role-management setting the result is the same, whatever
the four permission checks and `CurrentRoleName()` are. -/
theorem analyze_no_authorization (sem_context : SemContext) (stmt : PTDropStmt)
    (n : PTQualifiedName)
    (hgate : stmt.drop_type = .OBJECT_ROLE → sem_context.IsRoleManagementEnabled = true)
    (hone : stmt.names_.size = 1)
    (hres : stmt.name.AnalyzeName sem_context stmt.drop_type = (Status.OK, n)) :
    stmt.Analyze false sem_context =
      ⟨Status.OK, stmt.withName n, [Call.AnalyzeName stmt.name stmt.drop_type]⟩ ∧
    ∀ ctx2 : SemContext,
      ctx2.IsRoleManagementEnabled = sem_context.IsRoleManagementEnabled →
      ctx2.ResolveName = sem_context.ResolveName →
      stmt.Analyze false ctx2 = stmt.Analyze false sem_context := by
  have key : ∀ ctx : SemContext,
      ctx.IsRoleManagementEnabled = sem_context.IsRoleManagementEnabled →
      ctx.ResolveName = sem_context.ResolveName →
      stmt.Analyze false ctx =
        ⟨Status.OK, stmt.withName n, [Call.AnalyzeName stmt.name stmt.drop_type]⟩ := by
    intro ctx hg hr
    have hgate2 : stmt.drop_type = .OBJECT_ROLE → ctx.IsRoleManagementEnabled = true := by
      intro hrole
      rw [hg]
      exact hgate hrole
    have hres2 : stmt.name.AnalyzeName ctx stmt.drop_type = (Status.OK, n) := by
      unfold PTQualifiedName.AnalyzeName at hres ⊢
      rw [hr]
      exact hres
    have hA := PTDropStmt.Analyze_resolved false ctx stmt n hgate2 (by omega) hres2
    simpa using hA
  refine ⟨key sem_context rfl rfl, ?_⟩
  intro ctx2 hg hr
  rw [key sem_context rfl rfl, key ctx2 hg hr]

/-- Witness for C10, amended: a statement of an unlisted kind, tag 12, analysed
with authorization disabled by a session holding no permission. -/
theorem analyze_no_authorization_witness :
    (sampleStmt (.OBJECT_OTHER 12) []).names_.size = 1 ∧
    (sampleStmt (.OBJECT_OTHER 12) []).Analyze false
        (sampleContext false samplePermissionError "admin") =
      ⟨Status.OK, (sampleStmt (.OBJECT_OTHER 12) []).withName (sampleName "ks" "orders"),
        [Call.AnalyzeName (sampleName "" "orders") (.OBJECT_OTHER 12)]⟩ :=
  ⟨by decide,
    (analyze_no_authorization (sampleContext false samplePermissionError "admin")
      (sampleStmt (.OBJECT_OTHER 12) []) (sampleName "ks" "orders") (by decide) (by decide)
      rfl).1⟩

/-! ## Unknown kinds and failing name resolution -/

/-- C11, as stated, fails: a statement of an unlisted kind, tag 12, with a single
name that resolves, analysed with authorization disabled, is accepted. -/
theorem unknown_kind_accepted_without_authorization :
    (sampleStmt (.OBJECT_OTHER 12) []).drop_type = .OBJECT_OTHER 12 ∧
    (sampleStmt (.OBJECT_OTHER 12) []).Analyze false (sampleContext true .OK "admin") =
      ⟨Status.OK, (sampleStmt (.OBJECT_OTHER 12) []).withName (sampleName "ks" "orders"),
        [Call.AnalyzeName (sampleName "" "orders") (.OBJECT_OTHER 12)]⟩ := by
  decide

/-- C11, amended. With authorization enabled, for every drop type other than
TABLE, INDEX, TYPE, SCHEMA and ROLE and for every context and name list,
`Analyze` does not return success, and it calls no permission check. -/
theorem analyze_unknown_kind_rejected (sem_context : SemContext) (stmt : PTDropStmt)
    (hkind : stmt.drop_type ≠ .OBJECT_TABLE ∧ stmt.drop_type ≠ .OBJECT_INDEX ∧
      stmt.drop_type ≠ .OBJECT_TYPE ∧ stmt.drop_type ≠ .OBJECT_SCHEMA ∧
      stmt.drop_type ≠ .OBJECT_ROLE) :
    (stmt.Analyze true sem_context).status ≠ Status.OK ∧
    ∀ c ∈ (stmt.Analyze true sem_context).calls, c.isPermissionCheck = false := by
  obtain ⟨h1, h2, h3, h4, h5⟩ := hkind
  have hgate : stmt.drop_type = ObjectType.OBJECT_ROLE →
      sem_context.IsRoleManagementEnabled = true := fun h => absurd h h5
  by_cases hmany : 1 < stmt.names_.size
  · rw [PTDropStmt.Analyze_many true sem_context stmt hgate hmany]
    simp
  · rcases hr : stmt.name.AnalyzeName sem_context stmt.drop_type with ⟨s, n⟩
    cases s with
    | OK =>
      have hA := PTDropStmt.Analyze_resolved true sem_context stmt n hgate (by omega) hr
      simp only [if_true] at hA
      rw [hA]
      unfold PTDropStmt.AnalyzeAuth
      simp only [PTDropStmt.drop_type_withName, PTDropStmt.loc_withName]
      cases hdt : stmt.drop_type <;>
        simp_all [SemContext.ErrorCodeOnly, SemContext.Error, Call.isPermissionCheck]
    | Error c m l =>
      have hsize : ¬ stmt.names_.size > 1 := hmany
      unfold PTDropStmt.Analyze
      rw [PTDropStmt.gate_passes sem_context stmt hgate]
      simp [hsize, hr, Status.ok, Call.isPermissionCheck]

/-- Witness for C11, amended: the statement of kind tag 12 analysed with
authorization enabled. -/
theorem analyze_unknown_kind_rejected_witness :
    (sampleStmt (.OBJECT_OTHER 12) []).drop_type = .OBJECT_OTHER 12 ∧
    ((sampleStmt (.OBJECT_OTHER 12) []).Analyze true (sampleContext true .OK "admin")).status
      ≠ Status.OK :=
  ⟨rfl,
    (analyze_unknown_kind_rejected (sampleContext true .OK "admin")
      (sampleStmt (.OBJECT_OTHER 12) []) (by decide)).1⟩

/-- C12. Fail-fast on name resolution: for every drop type that passes the role
gate and every name list of at most one entry, if name resolution fails then
`Analyze` returns exactly the error the resolver reported and the only
collaborator called is the resolver.  The result is the same whatever the
authorization flag is and, in every context with the same resolver and
role-management setting, whatever the permission checks and
`CurrentRoleName()` are. -/
theorem analyze_resolution_fail_fast (flag : Bool) (sem_context : SemContext)
    (stmt : PTDropStmt) (e : Status) (n : PTQualifiedName)
    (hgate : stmt.drop_type = .OBJECT_ROLE → sem_context.IsRoleManagementEnabled = true)
    (hone : stmt.names_.size ≤ 1)
    (hres : stmt.name.AnalyzeName sem_context stmt.drop_type = (e, n))
    (hfail : e ≠ Status.OK) :
    stmt.Analyze flag sem_context =
      ⟨e, stmt.withName n, [Call.AnalyzeName stmt.name stmt.drop_type]⟩ ∧
    ∀ (flag2 : Bool) (ctx2 : SemContext),
      ctx2.IsRoleManagementEnabled = sem_context.IsRoleManagementEnabled →
      ctx2.ResolveName = sem_context.ResolveName →
      stmt.Analyze flag2 ctx2 = stmt.Analyze flag sem_context := by
  have hnok : e.ok = false := (Status.not_ok_iff e).mpr hfail
  have hsize : ¬ stmt.names_.size > 1 := by omega
  have key : ∀ (f : Bool) (ctx : SemContext),
      ctx.IsRoleManagementEnabled = sem_context.IsRoleManagementEnabled →
      ctx.ResolveName = sem_context.ResolveName →
      stmt.Analyze f ctx = ⟨e, stmt.withName n, [Call.AnalyzeName stmt.name stmt.drop_type]⟩ := by
    intro f ctx hg hr
    have hgate2 : stmt.drop_type = .OBJECT_ROLE → ctx.IsRoleManagementEnabled = true := by
      intro hrole
      rw [hg]
      exact hgate hrole
    have hres2 : stmt.name.AnalyzeName ctx stmt.drop_type = (e, n) := by
      unfold PTQualifiedName.AnalyzeName at hres ⊢
      rw [hr]
      exact hres
    unfold PTDropStmt.Analyze
    rw [PTDropStmt.gate_passes ctx stmt hgate2]
    simp [hsize, hres2, hnok]
  refine ⟨key flag sem_context rfl rfl, ?_⟩
  intro flag2 ctx2 hg hr
  rw [key flag sem_context rfl rfl, key flag2 ctx2 hg hr]

/-- Witness for C12: `DROP TABLE IF EXISTS orders` where the keyspace cannot be
resolved. -/
theorem analyze_resolution_fail_fast_witness :
    (sampleStmt .OBJECT_TABLE []).names_.size ≤ 1 ∧
    (sampleStmt .OBJECT_TABLE []).Analyze true (sampleUnresolvedContext true .OK "admin") =
      ⟨Status.Error (ErrorCode.OTHER_CODE 2) "keyspace not found" 3,
        (sampleStmt .OBJECT_TABLE []).withName (sampleName "" "orders"),
        [Call.AnalyzeName (sampleName "" "orders") .OBJECT_TABLE]⟩ :=
  ⟨by decide,
    (analyze_resolution_fail_fast true (sampleUnresolvedContext true .OK "admin")
      (sampleStmt .OBJECT_TABLE []) (Status.Error (ErrorCode.OTHER_CODE 2) "keyspace not found" 3)
      (sampleName "" "orders") (by decide) (by decide) rfl (by decide)).1⟩

/-! ## The trace line -/

/-- C13. Output format of `PrintSemanticAnalysisResult` for the five known
kinds: for every statement location, name list and IF EXISTS flag the text is a
tab, the label of the kind (`Table`, `Keyspace` for SCHEMA, `Type`, `Index`,
`Role`), one space, the last component of the name, and then `" IF EXISTS"`
exactly when the flag is set.  For SCHEMA, flag set and last component
`analytics` it is `"\tKeyspace analytics IF EXISTS"`. -/
theorem describe_known_kinds (sem_context : SemContext) (loc : YBLocation)
    (names : PTQualifiedNameListNode) (drop_if_exists : Bool) :
    PTDropStmt.PrintSemanticAnalysisResult sem_context
        ⟨loc, .OBJECT_TABLE, names, drop_if_exists⟩ =
      "\t" ++ "Table" ++ " " ++ names.first.last_name ++
        (if drop_if_exists then " IF EXISTS" else "") ∧
    PTDropStmt.PrintSemanticAnalysisResult sem_context
        ⟨loc, .OBJECT_SCHEMA, names, drop_if_exists⟩ =
      "\t" ++ "Keyspace" ++ " " ++ names.first.last_name ++
        (if drop_if_exists then " IF EXISTS" else "") ∧
    PTDropStmt.PrintSemanticAnalysisResult sem_context
        ⟨loc, .OBJECT_TYPE, names, drop_if_exists⟩ =
      "\t" ++ "Type" ++ " " ++ names.first.last_name ++
        (if drop_if_exists then " IF EXISTS" else "") ∧
    PTDropStmt.PrintSemanticAnalysisResult sem_context
        ⟨loc, .OBJECT_INDEX, names, drop_if_exists⟩ =
      "\t" ++ "Index" ++ " " ++ names.first.last_name ++
        (if drop_if_exists then " IF EXISTS" else "") ∧
    PTDropStmt.PrintSemanticAnalysisResult sem_context
        ⟨loc, .OBJECT_ROLE, names, drop_if_exists⟩ =
      "\t" ++ "Role" ++ " " ++ names.first.last_name ++
        (if drop_if_exists then " IF EXISTS" else "") ∧
    PTDropStmt.PrintSemanticAnalysisResult sem_context
        ⟨loc, .OBJECT_SCHEMA, ⟨names.loc, sampleName "" "analytics", names.rest⟩, true⟩ =
      "\tKeyspace analytics IF EXISTS" := by
  exact ⟨rfl, rfl, rfl, rfl, rfl, rfl⟩

/-- C14. `PrintSemanticAnalysisResult` never fails: it is a total function that
yields a text for every statement, and the text is determined by the drop type,
the last component of the name and the IF EXISTS flag alone.  For every drop
type other than TABLE, INDEX, TYPE, SCHEMA and ROLE the text is a tab, the label
`UNKNOWN OBJECT`, one space, the last component of the name, and then
`" IF EXISTS"` when the flag is set. -/
theorem describe_never_fails (sem_context : SemContext) (loc : YBLocation) (tag : Nat)
    (names : PTQualifiedNameListNode) (drop_if_exists : Bool) :
    PTDropStmt.PrintSemanticAnalysisResult sem_context
        ⟨loc, .OBJECT_OTHER tag, names, drop_if_exists⟩ =
      "\t" ++ "UNKNOWN OBJECT" ++ " " ++ names.first.last_name ++
        (if drop_if_exists then " IF EXISTS" else "") ∧
    (∀ stmt : PTDropStmt, ∃ line : String,
      stmt.PrintSemanticAnalysisResult sem_context = line) ∧
    ∀ (ctx1 ctx2 : SemContext) (stmt1 stmt2 : PTDropStmt),
      stmt1.drop_type = stmt2.drop_type →
      stmt1.name.last_name = stmt2.name.last_name →
      stmt1.drop_if_exists = stmt2.drop_if_exists →
      stmt1.PrintSemanticAnalysisResult ctx1 = stmt2.PrintSemanticAnalysisResult ctx2 := by
  refine ⟨rfl, fun stmt => ⟨_, rfl⟩, ?_⟩
  intro ctx1 ctx2 stmt1 stmt2 hkind hlast hflag
  unfold PTDropStmt.PrintSemanticAnalysisResult
  rw [hkind, hlast, hflag]

/-- Witness for C14: two statements of kind tag 12 for `ks.orders` and
`other.orders`, at different locations, give the same text. -/
theorem describe_never_fails_witness :
    PTDropStmt.PrintSemanticAnalysisResult (sampleContext true .OK "admin")
        ⟨7, .OBJECT_OTHER 12, ⟨3, sampleName "ks" "orders", []⟩, true⟩ =
      "\tUNKNOWN OBJECT orders IF EXISTS" ∧
    PTDropStmt.PrintSemanticAnalysisResult (sampleContext true .OK "admin")
        ⟨7, .OBJECT_OTHER 12, ⟨3, sampleName "ks" "orders", []⟩, true⟩ =
      PTDropStmt.PrintSemanticAnalysisResult (sampleContext false samplePermissionError "guest")
        ⟨9, .OBJECT_OTHER 12, ⟨4, sampleName "other" "orders", []⟩, true⟩ :=
  ⟨(describe_never_fails (sampleContext true .OK "admin") 7 12
      ⟨3, sampleName "ks" "orders", []⟩ true).1,
    (describe_never_fails (sampleContext true .OK "admin") 7 12
      ⟨3, sampleName "ks" "orders", []⟩ true).2.2 _ _ _ _ rfl rfl rfl⟩

/-! ## Relational properties of `Analyze` -/

/-- C15. The IF EXISTS flag does not influence analysis: for every statement,
every value of the flag, every context and authorization flag, `Analyze` on the
statement with the flag replaced returns the same status (same success, or same
error with the same code, message and location), makes the same collaborator
calls, and leaves the same node up to the flag, hence the same resolved name. -/
theorem analyze_ignores_drop_if_exists (flag : Bool) (sem_context : SemContext)
    (stmt : PTDropStmt) (b : Bool) :
    (PTDropStmt.Analyze flag sem_context { stmt with drop_if_exists_ := b }).status =
      (stmt.Analyze flag sem_context).status ∧
    (PTDropStmt.Analyze flag sem_context { stmt with drop_if_exists_ := b }).calls =
      (stmt.Analyze flag sem_context).calls ∧
    (PTDropStmt.Analyze flag sem_context { stmt with drop_if_exists_ := b }).stmt =
      { (stmt.Analyze flag sem_context).stmt with drop_if_exists_ := b } ∧
    (PTDropStmt.Analyze flag sem_context { stmt with drop_if_exists_ := b }).stmt.name =
      (stmt.Analyze flag sem_context).stmt.name := by
  obtain ⟨loc, kind, names, ife⟩ := stmt
  simp only [PTDropStmt.Analyze, PTDropStmt.AnalyzeAuth, PTDropStmt.loc, PTDropStmt.drop_type,
    PTDropStmt.name, PTDropStmt.withName, PTDropStmt.yb_table_name]
  split
  · simp
  · split
    · simp
    · split
      · simp
      · split
        · cases kind <;> simp only [] <;> (repeat' split) <;> simp
        · simp

/-- C16, as stated, fails: the two messages start with a capital letter and the
self-drop message spells `DROP` in capitals, so neither equals the lower-case
text. -/
theorem analyze_messages_differ_in_case :
    ((sampleStmt .OBJECT_ROLE [sampleName "" "guest"]).Analyze true
      (sampleContext true .OK "admin")).status.message =
        some "Only one object name is allowed in a drop statement" ∧
    ((sampleStmt .OBJECT_ROLE [sampleName "" "guest"]).Analyze true
      (sampleContext true .OK "admin")).status.message ≠
        some "only one object name is allowed in a drop statement" ∧
    ((sampleStmt .OBJECT_ROLE []).Analyze true (sampleContext true .OK "orders")).status.message =
        some "Cannot DROP primary role for current login" ∧
    ((sampleStmt .OBJECT_ROLE []).Analyze true (sampleContext true .OK "orders")).status.message ≠
        some "cannot drop primary role for current login" := by
  decide

/-- C16, amended. The messages of the two errors `Analyze` builds itself: past
the role gate, the arity error carries
`"Only one object name is allowed in a drop statement"`, and the self-drop error
(ROLE, authorization enabled, one name that resolves, role permission check OK,
role name equal to `CurrentRoleName()`) carries
`"Cannot DROP primary role for current login"`. -/
theorem analyze_error_messages (flag : Bool) (sem_context : SemContext) (stmt : PTDropStmt)
    (n : PTQualifiedName)
    (hgate : stmt.drop_type = .OBJECT_ROLE → sem_context.IsRoleManagementEnabled = true) :
    (1 < stmt.names_.size →
      (stmt.Analyze flag sem_context).status.code = some ErrorCode.CQL_STATEMENT_INVALID ∧
      (stmt.Analyze flag sem_context).status.message =
        some "Only one object name is allowed in a drop statement") ∧
    (stmt.drop_type = .OBJECT_ROLE → stmt.names_.size = 1 →
      stmt.name.AnalyzeName sem_context stmt.drop_type = (Status.OK, n) →
      sem_context.CheckHasRolePermission stmt.loc .DROP_PERMISSION n.QLName = Status.OK →
      sem_context.CurrentRoleName = n.QLName →
      (stmt.Analyze true sem_context).status.code = some ErrorCode.INVALID_REQUEST ∧
      (stmt.Analyze true sem_context).status.message =
        some "Cannot DROP primary role for current login") := by
  constructor
  · intro hmany
    rw [PTDropStmt.Analyze_many flag sem_context stmt hgate hmany]
    exact ⟨rfl, rfl⟩
  · intro hkind hone hres hperm hself
    have hA := PTDropStmt.Analyze_resolved true sem_context stmt n hgate (by omega) hres
    simp only [if_true] at hA
    rw [hA]
    unfold PTDropStmt.AnalyzeAuth
    simp only [PTDropStmt.drop_type_withName, PTDropStmt.loc_withName, PTDropStmt.name_withName,
      hkind, hperm]
    simp [Status.ok, hself, SemContext.Error, Status.code, Status.message]

/-- Witness for C16, amended: `DROP ROLE orders, guest`, and `DROP ROLE orders`
issued by the session `orders`. -/
theorem analyze_error_messages_witness :
    ((sampleStmt .OBJECT_ROLE [sampleName "" "guest"]).Analyze false
      (sampleContext true .OK "admin")).status.message =
        some "Only one object name is allowed in a drop statement" ∧
    ((sampleStmt .OBJECT_ROLE []).Analyze true (sampleContext true .OK "orders")).status.message =
        some "Cannot DROP primary role for current login" :=
  ⟨((analyze_error_messages false (sampleContext true .OK "admin")
      (sampleStmt .OBJECT_ROLE [sampleName "" "guest"]) (sampleName "ks" "orders")
      (fun _ => rfl)).1 (by decide)).2,
    ((analyze_error_messages true (sampleContext true .OK "orders")
      (sampleStmt .OBJECT_ROLE []) (sampleName "ks" "orders")
      (fun _ => rfl)).2 rfl (by decide) rfl rfl (by decide)).2⟩

/-! ## Running `Analyze` again -/

theorem PTDropStmt.size_withName (self : PTDropStmt) (n : PTQualifiedName) :
    (self.withName n).names_.size = self.names_.size := rfl

/-- C18. The self-drop guard does not over-reject: for ROLE with role management
and authorization enabled, exactly one name, successful name resolution and a
successful role permission check, `Analyze` fails if and only if the role name
equals `CurrentRoleName()`; when the two differ it succeeds, after the
permission check and `CurrentRoleName()` were consulted. -/
theorem analyze_role_guard_exact (sem_context : SemContext) (stmt : PTDropStmt)
    (n : PTQualifiedName)
    (hkind : stmt.drop_type = .OBJECT_ROLE)
    (hgate : sem_context.IsRoleManagementEnabled = true)
    (hone : stmt.names_.size = 1)
    (hres : stmt.name.AnalyzeName sem_context stmt.drop_type = (Status.OK, n))
    (hperm : sem_context.CheckHasRolePermission stmt.loc .DROP_PERMISSION n.QLName = Status.OK) :
    ((stmt.Analyze true sem_context).status ≠ Status.OK ↔
      sem_context.CurrentRoleName = n.QLName) ∧
    (sem_context.CurrentRoleName ≠ n.QLName →
      stmt.Analyze true sem_context =
        ⟨Status.OK, stmt.withName n,
          [Call.AnalyzeName stmt.name stmt.drop_type,
           Call.CheckHasRolePermission stmt.loc .DROP_PERMISSION n.QLName,
           Call.CurrentRoleName]⟩) := by
  have hA := PTDropStmt.Analyze_resolved true sem_context stmt n (fun _ => hgate) (by omega) hres
  simp only [if_true] at hA
  rw [hA]
  unfold PTDropStmt.AnalyzeAuth
  simp only [PTDropStmt.drop_type_withName, PTDropStmt.loc_withName, PTDropStmt.name_withName,
    hkind, hperm]
  by_cases hself : sem_context.CurrentRoleName = n.QLName
  · simp [Status.ok, hself, SemContext.Error]
  · simp [Status.ok, hself]

/-- Witness for C18: the session `admin` drops the role `orders` while holding
the permission. -/
theorem analyze_role_guard_exact_witness :
    (sampleStmt .OBJECT_ROLE []).names_.size = 1 ∧
    (sampleContext true .OK "admin").CurrentRoleName ≠ (sampleName "ks" "orders").QLName ∧
    (sampleStmt .OBJECT_ROLE []).Analyze true (sampleContext true .OK "admin") =
      ⟨Status.OK, (sampleStmt .OBJECT_ROLE []).withName (sampleName "ks" "orders"),
        [Call.AnalyzeName (sampleName "" "orders") .OBJECT_ROLE,
         Call.CheckHasRolePermission 7 .DROP_PERMISSION "orders",
         Call.CurrentRoleName]⟩ :=
  ⟨by decide, by decide,
    (analyze_role_guard_exact (sampleContext true .OK "admin") (sampleStmt .OBJECT_ROLE [])
      (sampleName "ks" "orders") rfl rfl (by decide) rfl rfl).2 (by decide)⟩

end yb.ql
